import Mathlib

/-!
Formal model of the ASL-Live-Subtitles model-serving microservice: a FastAPI
application (src/main.py) exposing CRUD endpoints over three MySQL tables
(models, gestures, predictions) through three record services
(src/db/model_serving_service.py) built on a connection-managing base class
(src/db/abstract_base.py), with request models in src/models/gesture.py.

The embedding is a shallow one: each MySQL table becomes a Lean structure
holding a list of rows plus the AUTO_INCREMENT counter; each service method
becomes a pure function threading the table state explicitly; server-side
clocks (NOW(), datetime.utcnow()) become an explicit `now : Nat` argument;
Python exceptions escaping a handler become the `pyError` constructor of the
HTTP-response type (FastAPI surfaces them as a server error), while
`HTTPException(code, detail)` raised by a handler becomes `httpError`.
Python truthiness tests on optional strings/ints (`if user_id:`,
`if error_message:`, `if session_id:`) are modelled by explicit truthiness
functions. JSON-typed columns that a verified property round-trips through
(the model shape columns) are modelled as the stored JSON text together with
executable encode/decode functions mirroring Python json.dumps/json.loads on
lists of integers; JSON columns no verified property decodes (landmarks,
probs, params, metrics) are modelled by the decoded value itself.
-/

set_option autoImplicit false

/-- Python truthiness of an optional string: None and the empty string are
falsy, every other string is truthy. Models tests such as `if user_id:` and
`if error_message:` in src/db/model_serving_service.py. -/
def truthyOptStr : Option String → Bool
  | none => false
  | some s => !s.isEmpty

/-- Python truthiness of an optional integer: None and 0 are falsy. Models
`if session_id:` in PredictionsMySQLService.retrieve. -/
def truthyOptInt : Option Int → Bool
  | none => false
  | some n => n != 0

/-- Python `s or d` on strings: the left operand unless it is falsy (empty). -/
def pyStrOr (s d : String) : String :=
  if s.isEmpty then d else s

/-- json.dumps of a list of integers, as Python produces it for the model
shape columns: elements joined by a comma and a space inside brackets. -/
def jsonDumpsIntList (xs : List Int) : String :=
  "[" ++ String.intercalate ", " (xs.map toString) ++ "]"

/-- Numeric value of a decimal digit character. -/
def digitVal (c : Char) : Option Nat :=
  if '0' ≤ c ∧ c ≤ '9' then some (c.toNat - '0'.toNat) else none

/-- Parse a run of decimal digits into a Nat, failing on a non-digit. -/
def digitsToNat : List Char → Nat → Option Nat
  | [], acc => some acc
  | c :: rest, acc =>
    match digitVal c with
    | some d => digitsToNat rest (acc * 10 + d)
    | none => none

/-- Parse an optionally negated decimal integer token. -/
def parseIntChars : List Char → Option Int
  | [] => none
  | '-' :: rest =>
    match rest with
    | [] => none
    | _ => (digitsToNat rest 0).map (fun n => -(n : Int))
  | cs => (digitsToNat cs 0).map (fun n => (n : Int))

/-- Split a character list on commas (the JSON array element separator). -/
def splitOnComma : List Char → List (List Char)
  | [] => [[]]
  | c :: rest =>
    let r := splitOnComma rest
    if c = ',' then [] :: r
    else
      match r with
      | [] => [[c]]
      | t :: ts => (c :: t) :: ts

/-- Strip leading and trailing spaces from a character list. -/
def trimChars (cs : List Char) : List Char :=
  ((cs.dropWhile (fun c => c = ' ')).reverse.dropWhile (fun c => c = ' ')).reverse

/-- json.loads restricted to JSON arrays of integers, mirroring how a client
decodes the stored shape text back into a list of integers. -/
def jsonParseIntList (s : String) : Option (List Int) :=
  match s.data with
  | '[' :: rest =>
    match rest.getLast? with
    | some ']' =>
      let inner := rest.dropLast
      if trimChars inner = [] then some []
      else (splitOnComma inner).mapM (fun t => parseIntChars (trimChars t))
    | _ => none
  | _ => none

/-- Insert into a list kept in descending key order (used to model
ORDER BY ... DESC in the retrieval queries). -/
def insertDescBy {α : Type} (key : α → Nat) (x : α) : List α → List α
  | [] => [x]
  | y :: ys => if key y ≤ key x then x :: y :: ys else y :: insertDescBy key x ys

/-- Sort a list of rows by a Nat key in descending order, modelling
ORDER BY ... DESC. -/
def sortDescBy {α : Type} (key : α → Nat) : List α → List α
  | [] => []
  | x :: xs => insertDescBy key x (sortDescBy key xs)

/-- Outcome of a FastAPI route handler: a successful response with a status
code and body, an HTTPException the handler raised deliberately, or an
uncaught Python exception (AttributeError, NotImplementedError, ...) that
FastAPI surfaces as a server error. -/
inductive HResp (α : Type) where
  | ok (code : Nat) (body : α)
  | httpError (code : Nat) (detail : String)
  | pyError (msg : String)
deriving DecidableEq

-- ─────────────────────────────────────────────────────────────────────────
-- MODELS table and ModelsMySQLService
-- ─────────────────────────────────────────────────────────────────────────

/-- A row of the `models` table. `input_shape` and `output_shape` hold the
JSON text the service wrote with json.dumps (the columns are JSON-typed via
CAST(%s AS JSON) and come back to the client as text); `metrics` is an
opaque optional mapping no verified property decodes, kept as its value. -/
structure ModelRow where
  model_id : Nat
  name : String
  version : String
  model_type : String
  artifact_uri : String
  input_shape : String
  output_shape : String
  status : String
  metrics : Option (List (String × Rat))
  sha256 : Option String
  created_at : Nat
deriving DecidableEq

/-- The `models` table: rows plus the AUTO_INCREMENT counter for model_id. -/
structure ModelsTable where
  rows : List ModelRow
  nextId : Nat
deriving DecidableEq

/-- The payload dict passed to ModelsMySQLService.create: required name,
version, model_type, artifact_uri, input_shape, output_shape; optional
status, metrics, sha256 (read with data.get, so absent keys are `none`). -/
structure ModelCreateData where
  name : String
  version : String
  model_type : String
  artifact_uri : String
  input_shape : List Int
  output_shape : List Int
  status : Option String
  metrics : Option (List (String × Rat))
  sha256 : Option String
deriving DecidableEq

namespace ModelsMySQLService

/-- ModelsMySQLService.create: INSERT INTO models with the shapes and
metrics serialized by json.dumps, status defaulting to "active", and the
created_at column filled by the database server clock (modelled by `now`).
Returns cur.lastrowid, the AUTO_INCREMENT id of the new row. -/
def create (db : ModelsTable) (data : ModelCreateData) (now : Nat) : Nat × ModelsTable :=
  let row : ModelRow := {
    model_id := db.nextId
    name := data.name
    version := data.version
    model_type := data.model_type
    artifact_uri := data.artifact_uri
    input_shape := jsonDumpsIntList data.input_shape
    output_shape := jsonDumpsIntList data.output_shape
    status := data.status.getD "active"
    metrics := data.metrics
    sha256 := data.sha256
    created_at := now }
  (db.nextId, { rows := db.rows ++ [row], nextId := db.nextId + 1 })

/-- ModelsMySQLService.retrieve: with no id, SELECT * ORDER BY created_at
DESC returning every row; with an id, SELECT ... WHERE model_id = %s and
fetchone, giving a singleton or empty list. Never fails for absence. -/
def retrieve (db : ModelsTable) (model_id : Option Nat) : List ModelRow :=
  match model_id with
  | none => sortDescBy (fun r => r.created_at) db.rows
  | some mid =>
    match db.rows.find? (fun r => r.model_id == mid) with
    | some r => [r]
    | none => []

/-- ModelsMySQLService.delete: DELETE FROM models WHERE model_id = %s,
returning cur.rowcount > 0, i.e. whether any row matched. -/
def delete (db : ModelsTable) (model_id : Nat) : Bool × ModelsTable :=
  let matched := db.rows.countP (fun r => r.model_id == model_id)
  (decide (0 < matched),
   { db with rows := db.rows.filter (fun r => !(r.model_id == model_id)) })

end ModelsMySQLService

/-- The pydantic ModelInput request model (src/models/gesture.py): name,
version, model_path, input_shape, output_classes required; description
optional; model_type defaulting to "classification". -/
structure ModelInput where
  name : String
  version : String
  description : Option String
  model_path : String
  input_shape : List Int
  output_classes : Int
  model_type : String
deriving DecidableEq

/-- Response body of POST /models. -/
structure ModelCreateResp where
  model_id : Nat
deriving DecidableEq

/-- Response body of DELETE /models. -/
structure DeletedResp where
  deleted : Bool
deriving DecidableEq

/-- POST /models handler register_model (src/main.py): builds the payload
dict with artifact_uri defaulting via Python `or` when model_path is falsy,
output_shape as the one-element list of output_classes, and returns 201
with the new model id. -/
def register_model (db : ModelsTable) (mi : ModelInput) (now : Nat) :
    HResp ModelCreateResp × ModelsTable :=
  let data : ModelCreateData := {
    name := mi.name
    version := mi.version
    model_type := mi.model_type
    artifact_uri := pyStrOr mi.model_path "/models/unknown.bin"
    input_shape := mi.input_shape
    output_shape := [mi.output_classes]
    status := none
    metrics := none
    sha256 := none }
  let res := ModelsMySQLService.create db data now
  (.ok 201 { model_id := res.1 }, res.2)

/-- GET /models/\x7bmodel_id\x7d handler get_model (src/main.py): retrieves
by id, answering 404 when the result list is empty and 200 with the first
row otherwise. -/
def get_model (db : ModelsTable) (model_id : Nat) : HResp ModelRow :=
  match ModelsMySQLService.retrieve db (some model_id) with
  | [] => .httpError 404 "Model not found"
  | r :: _ => .ok 200 r

/-- DELETE /models/\x7bmodel_id\x7d handler delete_model (src/main.py):
404 when the service reports nothing deleted, 200 with deleted true
otherwise. -/
def delete_model (db : ModelsTable) (model_id : Nat) :
    HResp DeletedResp × ModelsTable :=
  let res := ModelsMySQLService.delete db model_id
  if res.1 then (.ok 200 { deleted := true }, res.2)
  else (.httpError 404 "Model not found", res.2)

-- ─────────────────────────────────────────────────────────────────────────
-- GESTURES table and GesturesMySQLService
-- ─────────────────────────────────────────────────────────────────────────

/-- A landmark point: coordinates abstracted as rationals (the claims under
verification inspect only the number of points, never coordinate values). -/
abbrev Landmark := List Rat

/-- A row of the `gestures` table. The landmarks and probs columns are
JSON-typed; no verified property decodes their text, so they are kept as
their values. The trailing inference columns are NULL until
attach_inference runs. -/
structure GestureRow where
  gesture_id : Nat
  session_id : Option Int
  user_id : Option String
  landmarks : List Landmark
  frame_width : Option Int
  frame_height : Option Int
  source : String
  received_at : Nat
  model_id : Option Nat
  predicted_label : Option String
  confidence : Option Rat
  probs : Option (List (String × Rat))
  processing_time_ms : Option Int
  processed_at : Option Nat
deriving DecidableEq

/-- The `gestures` table: rows plus the AUTO_INCREMENT counter. -/
structure GesturesTable where
  rows : List GestureRow
  nextId : Nat
deriving DecidableEq

/-- The payload dict passed to GesturesMySQLService.create: required
landmarks; every other key read with data.get, so optional. -/
structure GestureCreateData where
  landmarks : List Landmark
  session_id : Option Int
  user_id : Option String
  frame_width : Option Int
  frame_height : Option Int
  source : Option String
deriving DecidableEq

namespace GesturesMySQLService

/-- GesturesMySQLService.create: INSERT INTO gestures with source defaulting
to "web" via data.get("source", "web"), received_at stamped from the
service clock (datetime.utcnow(), modelled by `now`), and the inference
columns left NULL. Returns cur.lastrowid. -/
def create (db : GesturesTable) (data : GestureCreateData) (now : Nat) :
    Nat × GesturesTable :=
  let row : GestureRow := {
    gesture_id := db.nextId
    session_id := data.session_id
    user_id := data.user_id
    landmarks := data.landmarks
    frame_width := data.frame_width
    frame_height := data.frame_height
    source := data.source.getD "web"
    received_at := now
    model_id := none
    predicted_label := none
    confidence := none
    probs := none
    processing_time_ms := none
    processed_at := none }
  (db.nextId, { rows := db.rows ++ [row], nextId := db.nextId + 1 })

/-- GesturesMySQLService.retrieve: `if user_id:` — a Python truthiness
test, so the WHERE user_id = %s branch runs only for a non-empty string;
otherwise every row is listed. Both branches ORDER BY received_at DESC and
LIMIT %s. -/
def retrieve (db : GesturesTable) (user_id : Option String) (limit : Nat) :
    List GestureRow :=
  if truthyOptStr user_id then
    ((sortDescBy (fun r => r.received_at)
      (db.rows.filter (fun r => r.user_id == user_id))).take limit)
  else
    ((sortDescBy (fun r => r.received_at) db.rows).take limit)

/-- GesturesMySQLService.update: the body is a single
`raise NotImplementedError("PUT /gestures/{id} not implemented")` — every
call fails, regardless of the id or the payload. -/
def update (db : GesturesTable) (gesture_id : Nat)
    (payload : List (String × String)) : Except String Bool :=
  .error "NotImplementedError: PUT /gestures/\x7bid\x7d not implemented"

/-- The set of methods the GesturesMySQLService class defines (together
with connect / get_connection / close_connection inherited from
AbstractBaseMySQLService). No `get_one` method exists anywhere in the
class hierarchy, so the attribute lookup `svc.get_one` in the GET
/gestures/\x7bgesture_id\x7d handler raises AttributeError; this is
modelled by the Option below being `none`. -/
def get_one? : Option (GesturesTable → Nat → Option GestureRow) := none

end GesturesMySQLService

-- ─────────────────────────────────────────────────────────────────────────
-- PREDICTIONS table and PredictionsMySQLService
-- ─────────────────────────────────────────────────────────────────────────

/-- A row of the `predictions` table. params is a JSON-typed column no
verified property decodes, kept as its value; the completion columns are
NULL until mark_complete (or an UPDATE) touches them. -/
structure PredictionRow where
  prediction_id : Nat
  requestor_user_id : Option String
  session_id : Option Int
  model_id : Option Nat
  status : String
  params : List (String × String)
  created_at : Nat
  completed_at : Option Nat
  output_text : Option String
  confidence : Option Rat
  latency_ms : Option Int
  error_message : Option String
deriving DecidableEq

/-- The `predictions` table: rows plus the AUTO_INCREMENT counter. -/
structure PredictionsTable where
  rows : List PredictionRow
  nextId : Nat
deriving DecidableEq

/-- The payload dict passed to PredictionsMySQLService.create: every key is
read with data.get, so each field is optional; status falls back to
"queued" and params to the empty mapping. -/
structure PredictionCreateData where
  requestor_user_id : Option String
  session_id : Option Int
  model_id : Option Nat
  status : Option String
  params : Option (List (String × String))
deriving DecidableEq

namespace PredictionsMySQLService

/-- PredictionsMySQLService.create: INSERT INTO predictions with status
data.get("status", "queued"), params json.dumps(data.get("params") or
\x7b\x7d), and created_at stamped by the database NOW() (modelled by
`now`). Returns cur.lastrowid. -/
def create (db : PredictionsTable) (data : PredictionCreateData) (now : Nat) :
    Nat × PredictionsTable :=
  let row : PredictionRow := {
    prediction_id := db.nextId
    requestor_user_id := data.requestor_user_id
    session_id := data.session_id
    model_id := data.model_id
    status := data.status.getD "queued"
    params := data.params.getD []
    created_at := now
    completed_at := none
    output_text := none
    confidence := none
    latency_ms := none
    error_message := none }
  (db.nextId, { rows := db.rows ++ [row], nextId := db.nextId + 1 })

/-- PredictionsMySQLService.mark_complete: `if error_message:` (Python
truthiness) selects one of two UPDATE statements — the failed branch sets
status, error_message and completed_at only; the succeeded branch sets
status, output_text, confidence, latency_ms and completed_at. Both report
cur.rowcount > 0, i.e. whether a row matched the WHERE prediction_id. -/
def mark_complete (db : PredictionsTable) (prediction_id : Nat)
    (output_text : String) (confidence : Option Rat) (latency_ms : Option Int)
    (error_message : Option String) (now : Nat) : Bool × PredictionsTable :=
  if truthyOptStr error_message then
    (decide (0 < db.rows.countP (fun r => r.prediction_id == prediction_id)),
     { db with rows := db.rows.map (fun r =>
         if r.prediction_id == prediction_id then
           { r with status := "failed", error_message := error_message,
                    completed_at := some now }
         else r) })
  else
    (decide (0 < db.rows.countP (fun r => r.prediction_id == prediction_id)),
     { db with rows := db.rows.map (fun r =>
         if r.prediction_id == prediction_id then
           { r with status := "succeeded", output_text := some output_text,
                    confidence := confidence, latency_ms := latency_ms,
                    completed_at := some now }
         else r) })

/-- PredictionsMySQLService.retrieve: `if session_id:` — Python truthiness,
so the WHERE session_id = %s branch runs only for a non-zero, non-None
session id; both branches ORDER BY created_at DESC and LIMIT %s. -/
def retrieve (db : PredictionsTable) (session_id : Option Int) (limit : Nat) :
    List PredictionRow :=
  if truthyOptInt session_id then
    ((sortDescBy (fun r => r.created_at)
      (db.rows.filter (fun r => r.session_id == session_id))).take limit)
  else
    ((sortDescBy (fun r => r.created_at) db.rows).take limit)

/-- PredictionsMySQLService.update: a single
`raise NotImplementedError("PUT /predictions/{id} not implemented")`. -/
def update (db : PredictionsTable) (prediction_id : Nat)
    (payload : List (String × String)) : Except String Bool :=
  .error "NotImplementedError: PUT /predictions/\x7bid\x7d not implemented"

/-- PredictionsMySQLService defines create, mark_complete, retrieve,
update, delete (plus the inherited connection lifecycle) and no `get_one`
method, so `svc.get_one` in the GET /predictions/\x7bprediction_id\x7d
handler raises AttributeError; modelled by `none`. -/
def get_one? : Option (PredictionsTable → Nat → Option PredictionRow) := none

end PredictionsMySQLService

-- ─────────────────────────────────────────────────────────────────────────
-- Request layer: gestures routes (src/main.py)
-- ─────────────────────────────────────────────────────────────────────────

/-- The raw JSON body of a POST /gestures request before pydantic
validation: a landmarks array and an optional user_id. -/
structure RawGestureBody where
  landmarks : List Landmark
  user_id : Option String
deriving DecidableEq

/-- The validated pydantic GestureInput model (src/models/gesture.py):
landmarks is declared with min_items=21 and max_items=21, user_id is
optional. -/
structure GestureInput where
  landmarks : List Landmark
  user_id : Option String
deriving DecidableEq

/-- Pydantic validation of a POST /gestures body against GestureInput:
the landmarks list must have at least 21 items (min_items=21) and at most
21 items (max_items=21); a violation is a request-validation error, which
FastAPI answers with HTTP 422 before the handler runs. -/
def validateGestureInput (b : RawGestureBody) :
    Except String GestureInput :=
  if b.landmarks.length < 21 then
    .error "landmarks: ensure this value has at least 21 items"
  else if 21 < b.landmarks.length then
    .error "landmarks: ensure this value has at most 21 items"
  else
    .ok { landmarks := b.landmarks, user_id := b.user_id }

/-- Response body of POST /gestures. -/
structure GestureCreateResp where
  gesture_id : Nat
deriving DecidableEq

/-- Response body of PUT routes. -/
structure UpdatedResp where
  updated : Bool
deriving DecidableEq

/-- POST /gestures handler create_gesture (src/main.py), run on the
already-validated GestureInput: rejects with HTTPException 400 when fewer
than 21 points, otherwise inserts via the service with the source key set
to "api" and session_id / frame dimensions absent, answering 201 with the
new id. -/
def create_gesture (db : GesturesTable) (gi : GestureInput) (now : Nat) :
    HResp GestureCreateResp × GesturesTable :=
  if gi.landmarks.length < 21 then
    (.httpError 400 "landmarks must have at least 21 points", db)
  else
    let res := GesturesMySQLService.create db {
      landmarks := gi.landmarks
      user_id := gi.user_id
      session_id := none
      frame_width := none
      frame_height := none
      source := some "api" } now
    (.ok 201 { gesture_id := res.1 }, res.2)

/-- The full POST /gestures pipeline: FastAPI parses and validates the body
against GestureInput (422 on a validation error, leaving the table
untouched), then runs the create_gesture handler. -/
def post_gestures (db : GesturesTable) (body : RawGestureBody) (now : Nat) :
    HResp GestureCreateResp × GesturesTable :=
  match validateGestureInput body with
  | .error msg => (.httpError 422 msg, db)
  | .ok gi => create_gesture db gi now

/-- GET /gestures/\x7bgesture_id\x7d handler get_gesture (src/main.py):
`row = svc.get_one(gesture_id)` — but the service class defines no get_one
method, so the attribute lookup raises AttributeError and the handler
never reaches its 404 check or its json.loads loop (which would itself be
a no-op: main.py never imports json, and the resulting NameError would be
swallowed by the `except Exception: pass` around each json.loads call). -/
def get_gesture (db : GesturesTable) (gesture_id : Nat) : HResp GestureRow :=
  match GesturesMySQLService.get_one? with
  | none =>
    .pyError "AttributeError: GesturesMySQLService object has no attribute get_one"
  | some get_one =>
    match get_one db gesture_id with
    | none => .httpError 404 "Gesture not found"
    | some row => .ok 200 row

/-- PUT /gestures/\x7bgesture_id\x7d handler update_gesture (src/main.py):
delegates to svc.update and maps a false result to 404 and a true result
to 200 with updated true; an exception from the service escapes. -/
def update_gesture (db : GesturesTable) (gesture_id : Nat)
    (payload : List (String × String)) : HResp UpdatedResp :=
  match GesturesMySQLService.update db gesture_id payload with
  | .error e => .pyError e
  | .ok true => .ok 200 { updated := true }
  | .ok false => .httpError 404 "Gesture not found or nothing to update"

-- ─────────────────────────────────────────────────────────────────────────
-- Request layer: predictions routes (src/main.py)
-- ─────────────────────────────────────────────────────────────────────────

/-- The dict body of a POST /predictions request (the handler takes a plain
dict, every key read with payload.get). -/
structure PredictionPostBody where
  requestor_user_id : Option String
  session_id : Option Int
  model_id : Option Nat
  status : Option String
  params : Option (List (String × String))
deriving DecidableEq

/-- Response body of POST /predictions. -/
structure PredictionCreateResp where
  prediction_id : Nat
  status : String
deriving DecidableEq

/-- POST /predictions handler create_prediction (src/main.py): forwards the
payload fields to the service, with the status key present as
payload.get("status", "queued") and params as payload.get("params", \x7b\x7d),
then answers 201 with the new id and the literal status "queued"
(regardless of what was stored). -/
def create_prediction (db : PredictionsTable) (payload : PredictionPostBody)
    (now : Nat) : HResp PredictionCreateResp × PredictionsTable :=
  let res := PredictionsMySQLService.create db {
    requestor_user_id := payload.requestor_user_id
    session_id := payload.session_id
    model_id := payload.model_id
    status := some (payload.status.getD "queued")
    params := some (payload.params.getD []) } now
  (.ok 201 { prediction_id := res.1, status := "queued" }, res.2)

/-- GET /predictions/\x7bprediction_id\x7d handler get_prediction
(src/main.py): `row = svc.get_one(prediction_id)` — no get_one method
exists on the service class, so the lookup raises AttributeError before
the 404 check or the params json.loads (which would also be dead: json is
never imported in main.py, the NameError being swallowed by the
surrounding `except Exception: pass`). -/
def get_prediction (db : PredictionsTable) (prediction_id : Nat) :
    HResp PredictionRow :=
  match PredictionsMySQLService.get_one? with
  | none =>
    .pyError "AttributeError: PredictionsMySQLService object has no attribute get_one"
  | some get_one =>
    match get_one db prediction_id with
    | none => .httpError 404 "Prediction not found"
    | some row => .ok 200 row

/-- PUT /predictions/\x7bprediction_id\x7d handler update_prediction
(src/main.py): delegates to svc.update, mapping false to 404 and true to
200 with updated true; an exception from the service escapes. -/
def update_prediction (db : PredictionsTable) (prediction_id : Nat)
    (payload : List (String × String)) : HResp UpdatedResp :=
  match PredictionsMySQLService.update db prediction_id payload with
  | .error e => .pyError e
  | .ok true => .ok 200 { updated := true }
  | .ok false => .httpError 404 "Prediction not found or nothing to update"

-- ─────────────────────────────────────────────────────────────────────────
-- Concrete fixtures (empty tables start AUTO_INCREMENT at 1)
-- ─────────────────────────────────────────────────────────────────────────

/-- A fresh, empty models table. -/
def emptyModelsDb : ModelsTable := { rows := [], nextId := 1 }

/-- A fresh, empty gestures table. -/
def emptyGesturesDb : GesturesTable := { rows := [], nextId := 1 }

/-- A fresh, empty predictions table. -/
def emptyPredictionsDb : PredictionsTable := { rows := [], nextId := 1 }

/-- A concrete registered model row with id 1. -/
def sampleModelRow : ModelRow := {
  model_id := 1
  name := "ASL"
  version := "v1"
  model_type := "classification"
  artifact_uri := "/m.bin"
  input_shape := "[42]"
  output_shape := "[37]"
  status := "active"
  metrics := none
  sha256 := none
  created_at := 0 }

/-- A models table holding exactly the row with id 1. -/
def sampleModelsDb : ModelsTable := { rows := [sampleModelRow], nextId := 2 }

/-- A concrete gesture row with id 1. -/
def sampleGestureRow : GestureRow := {
  gesture_id := 1
  session_id := none
  user_id := some "u1"
  landmarks := []
  frame_width := none
  frame_height := none
  source := "api"
  received_at := 0
  model_id := none
  predicted_label := none
  confidence := none
  probs := none
  processing_time_ms := none
  processed_at := none }

/-- A gestures table holding exactly the row with id 1. -/
def sampleGesturesDb : GesturesTable := { rows := [sampleGestureRow], nextId := 2 }

/-- A concrete queued prediction row with id 1. -/
def samplePredictionRow : PredictionRow := {
  prediction_id := 1
  requestor_user_id := some "u1"
  session_id := none
  model_id := none
  status := "queued"
  params := []
  created_at := 0
  completed_at := none
  output_text := none
  confidence := none
  latency_ms := none
  error_message := none }

/-- A predictions table holding exactly the queued row with id 1. -/
def samplePredictionsDb : PredictionsTable := { rows := [samplePredictionRow], nextId := 2 }

/-- A POST /gestures body with exactly 21 landmark points. -/
def body21 : RawGestureBody :=
  { landmarks := List.replicate 21 [1, 2], user_id := some "u1" }

/-- A POST /gestures body with 22 landmark points. -/
def body22 : RawGestureBody :=
  { landmarks := List.replicate 22 [1, 2], user_id := none }

/-- A POST /gestures body with 3 landmark points. -/
def body3 : RawGestureBody :=
  { landmarks := List.replicate 3 [1, 2], user_id := none }

/-- A POST /predictions body supplying an explicit status "running". -/
def predictionBodyRunning : PredictionPostBody :=
  { requestor_user_id := none, session_id := none, model_id := none,
    status := some "running", params := none }

/-- A POST /predictions body supplying no status. -/
def predictionBodyDefault : PredictionPostBody :=
  { requestor_user_id := some "u1", session_id := some 7, model_id := none,
    status := none, params := none }

/-- A POST /models body with input_shape 42 and output_classes 37, matching
the concrete scenario of the specification. -/
def sampleModelInput : ModelInput := {
  name := "ASL"
  version := "v1"
  description := none
  model_path := "/m.bin"
  input_shape := [42]
  output_classes := 37
  model_type := "classification" }

/-- A direct GesturesMySQLService.create payload whose dict carries no
source key. -/
def gestureDataNoSource : GestureCreateData :=
  { landmarks := [], session_id := none, user_id := none,
    frame_width := none, frame_height := none, source := none }

-- ─────────────────────────────────────────────────────────────────────────
-- Helper lemmas
-- ─────────────────────────────────────────────────────────────────────────

theorem find?_append_of_forall_false {α : Type} (p : α → Bool) (l₁ l₂ : List α)
    (h : ∀ a ∈ l₁, p a = false) :
    List.find? p (l₁ ++ l₂) = List.find? p l₂ := by
  induction l₁ with
  | nil => rfl
  | cons x xs ih =>
    have hx : p x = false := h x (List.mem_cons_self x xs)
    simp only [List.cons_append, List.find?, hx]
    exact ih (fun a ha => h a (List.mem_cons_of_mem x ha))

theorem countP_filter_not {α : Type} (p : α → Bool) (l : List α) :
    (l.filter (fun a => !(p a))).countP p = 0 := by
  rw [List.countP_eq_zero]
  intro a ha
  have h2 := (List.mem_filter.mp ha).2
  simp only [Bool.not_eq_true'] at h2
  simp [h2]

theorem filter_not_eq_self_of_none {α : Type} (p : α → Bool) (l : List α)
    (h : ∀ a ∈ l, p a = false) :
    l.filter (fun a => !(p a)) = l := by
  rw [List.filter_eq_self]
  intro a ha
  simp [h a ha]

-- ─────────────────────────────────────────────────────────────────────────
-- Claims
-- ─────────────────────────────────────────────────────────────────────────

/-- C1: the spec claims GET /gestures/\x7bid\x7d and GET /predictions/\x7bid\x7d
answer 200 with the row (JSON fields decoded) or 404, and never fail with
any other error on a well-formed request. In the code both handlers call
svc.get_one, a method no service class defines, so every such request
raises AttributeError (a server error), never reaching 200 or 404. -/
theorem c1_get_by_id_raises_attribute_error :
    ∀ (gdb : GesturesTable) (gid : Nat) (pdb : PredictionsTable) (pid : Nat),
    get_gesture gdb gid =
      .pyError "AttributeError: GesturesMySQLService object has no attribute get_one" ∧
    get_prediction pdb pid =
      .pyError "AttributeError: PredictionsMySQLService object has no attribute get_one" ∧
    (∀ (code : Nat) (row : GestureRow), get_gesture gdb gid ≠ .ok code row) ∧
    (∀ (code : Nat) (d : String), get_gesture gdb gid ≠ .httpError code d) ∧
    (∀ (code : Nat) (row : PredictionRow), get_prediction pdb pid ≠ .ok code row) ∧
    (∀ (code : Nat) (d : String), get_prediction pdb pid ≠ .httpError code d) := by
  intro gdb gid pdb pid
  refine ⟨rfl, rfl, ?_, ?_, ?_, ?_⟩ <;>
    intro a b h <;>
    simp [get_gesture, get_prediction, GesturesMySQLService.get_one?,
      PredictionsMySQLService.get_one?] at h

/-- C2 counterexample: a gesture row with id 1 exists in the table, yet
PUT /gestures/1 does not answer 200 with updated true (nor 404): the
service update method raises NotImplementedError; likewise for
PUT /predictions/1. -/
theorem c2_put_counterexample :
    update_gesture sampleGesturesDb 1 [] =
      .pyError "NotImplementedError: PUT /gestures/\x7bid\x7d not implemented" ∧
    update_gesture sampleGesturesDb 1 [] ≠ .ok 200 { updated := true } ∧
    update_gesture sampleGesturesDb 1 [] ≠
      .httpError 404 "Gesture not found or nothing to update" ∧
    update_prediction samplePredictionsDb 1 [] =
      .pyError "NotImplementedError: PUT /predictions/\x7bid\x7d not implemented" ∧
    update_prediction samplePredictionsDb 1 [] ≠ .ok 200 { updated := true } := by
  refine ⟨rfl, by decide, by decide, rfl, by decide⟩

/-- C2 amended: every PUT /gestures/\x7bid\x7d and PUT /predictions/\x7bid\x7d
request fails with the NotImplementedError raised by the service update
method (update is unsupported by design), surfaced as a server error; the
handler never produces 200 with updated true and never produces 404. -/
theorem c2_put_update_not_implemented :
    ∀ (gdb : GesturesTable) (gid : Nat) (gp : List (String × String))
      (pdb : PredictionsTable) (pid : Nat) (pp : List (String × String)),
    update_gesture gdb gid gp =
      .pyError "NotImplementedError: PUT /gestures/\x7bid\x7d not implemented" ∧
    update_prediction pdb pid pp =
      .pyError "NotImplementedError: PUT /predictions/\x7bid\x7d not implemented" := by
  intro gdb gid gp pdb pid pp
  exact ⟨rfl, rfl⟩

/-- C5: every POST /gestures body whose landmarks list has fewer than 21
points is rejected by request validation (min_items=21 on GestureInput,
answered as HTTP 422, a validation failure) and the gestures table is left
unchanged: no insert happens. -/
theorem c5_under_21_rejected_no_insert :
    ∀ (db : GesturesTable) (body : RawGestureBody) (now : Nat),
    body.landmarks.length < 21 →
    post_gestures db body now =
      (.httpError 422 "landmarks: ensure this value has at least 21 items", db) := by
  intro db body now h
  simp [post_gestures, validateGestureInput, if_pos h]

/-- C5 witness: the 3-point body is rejected with 422 and the empty table
stays empty. -/
theorem c5_under_21_rejected_no_insert_witness :
    body3.landmarks.length < 21 ∧
    post_gestures emptyGesturesDb body3 0 =
      (.httpError 422 "landmarks: ensure this value has at least 21 items",
       emptyGesturesDb) :=
  ⟨by decide, c5_under_21_rejected_no_insert emptyGesturesDb body3 0 (by decide)⟩

/-- C10: retrieving gestures with user_id equal to the empty string, and
predictions with session_id equal to 0, takes the unfiltered branch (the
filter guards are Python truthiness tests, not is-None tests), returning
all rows newest-first capped at the limit. -/
theorem c10_falsy_filters_return_all :
    ∀ (gdb : GesturesTable) (pdb : PredictionsTable) (limit : Nat),
    GesturesMySQLService.retrieve gdb (some "") limit =
      GesturesMySQLService.retrieve gdb none limit ∧
    GesturesMySQLService.retrieve gdb none limit =
      (sortDescBy (fun r => r.received_at) gdb.rows).take limit ∧
    PredictionsMySQLService.retrieve pdb (some 0) limit =
      PredictionsMySQLService.retrieve pdb none limit ∧
    PredictionsMySQLService.retrieve pdb none limit =
      (sortDescBy (fun r => r.created_at) pdb.rows).take limit := by
  intro gdb pdb limit
  refine ⟨?_, rfl, ?_, rfl⟩ <;> rfl

/-- C3 counterexample: a POST /gestures body with 22 landmark points — at
least 21, so the claim predicts acceptance and a 201 — is rejected with a
422 request-validation error (GestureInput declares max_items=21) and
nothing is inserted. -/
theorem c3_over_21_rejected_counterexample :
    post_gestures emptyGesturesDb body22 0 =
      (.httpError 422 "landmarks: ensure this value has at most 21 items",
       emptyGesturesDb) ∧
    (post_gestures emptyGesturesDb body22 0).1 ≠ .ok 201 { gesture_id := 1 } ∧
    (post_gestures emptyGesturesDb body22 0).2 = emptyGesturesDb := by
  refine ⟨by decide, by decide, by decide⟩

/-- C3 amended: a POST /gestures body passes validation only when its
landmarks list has exactly 21 points (GestureInput declares both
min_items=21 and max_items=21); for such a body creation succeeds with 201
returning the new gesture identifier and the row is inserted. -/
theorem c3_exactly_21_accepted :
    ∀ (db : GesturesTable) (body : RawGestureBody) (now : Nat),
    body.landmarks.length = 21 →
    post_gestures db body now =
      (.ok 201 { gesture_id := db.nextId },
       { rows := db.rows ++ [{
           gesture_id := db.nextId
           session_id := none
           user_id := body.user_id
           landmarks := body.landmarks
           frame_width := none
           frame_height := none
           source := "api"
           received_at := now
           model_id := none
           predicted_label := none
           confidence := none
           probs := none
           processing_time_ms := none
           processed_at := none }],
         nextId := db.nextId + 1 }) := by
  intro db body now h
  simp [post_gestures, validateGestureInput, h, create_gesture,
    GesturesMySQLService.create]

/-- C3 witness: the 21-point body is accepted on the empty table, answering
201 with gesture id 1 and inserting the row. -/
theorem c3_exactly_21_accepted_witness :
    body21.landmarks.length = 21 ∧
    post_gestures emptyGesturesDb body21 5 =
      (.ok 201 { gesture_id := 1 },
       { rows := [{
           gesture_id := 1
           session_id := none
           user_id := some "u1"
           landmarks := List.replicate 21 [1, 2]
           frame_width := none
           frame_height := none
           source := "api"
           received_at := 5
           model_id := none
           predicted_label := none
           confidence := none
           probs := none
           processing_time_ms := none
           processed_at := none }],
         nextId := 2 }) :=
  ⟨by decide, c3_exactly_21_accepted emptyGesturesDb body21 5 (by decide)⟩

/-- C6 counterexample: a POST /predictions payload carrying status
"running" creates a row whose status is "running", not "queued", while the
201 response still reports status "queued". -/
theorem c6_status_override_counterexample :
    ((create_prediction emptyPredictionsDb predictionBodyRunning 3).2.rows.map
      (fun r => r.status)) = ["running"] ∧
    (create_prediction emptyPredictionsDb predictionBodyRunning 3).1 =
      .ok 201 { prediction_id := 1, status := "queued" } ∧
    ("running" : String) ≠ "queued" := by
  refine ⟨by decide, by decide, by decide⟩

/-- C6 amended: a prediction created via POST /predictions whose payload
supplies no status is stored with status "queued" (the documented default),
and the 201 response reports status "queued"; when the payload supplies a
status, the stored row carries that value while the response still says
"queued". -/
theorem c6_default_status_queued :
    ∀ (db : PredictionsTable) (payload : PredictionPostBody) (now : Nat),
    (create_prediction db payload now).1 =
      .ok 201 { prediction_id := db.nextId, status := "queued" } ∧
    (payload.status = none →
      (create_prediction db payload now).2.rows = db.rows ++ [{
        prediction_id := db.nextId
        requestor_user_id := payload.requestor_user_id
        session_id := payload.session_id
        model_id := payload.model_id
        status := "queued"
        params := payload.params.getD []
        created_at := now
        completed_at := none
        output_text := none
        confidence := none
        latency_ms := none
        error_message := none }]) ∧
    (∀ s, payload.status = some s →
      (create_prediction db payload now).2.rows.map (fun r => r.status) =
        db.rows.map (fun r => r.status) ++ [s]) := by
  intro db payload now
  refine ⟨rfl, ?_, ?_⟩
  · intro h
    simp [create_prediction, PredictionsMySQLService.create, h]
  · intro s h
    simp [create_prediction, PredictionsMySQLService.create, h]

/-- C6 witness: a payload with no status creates row 1 with status "queued"
on the empty table and answers 201 reporting "queued". -/
theorem c6_default_status_queued_witness :
    predictionBodyDefault.status = none ∧
    (create_prediction emptyPredictionsDb predictionBodyDefault 4).1 =
      .ok 201 { prediction_id := 1, status := "queued" } ∧
    (create_prediction emptyPredictionsDb predictionBodyDefault 4).2.rows = [{
      prediction_id := 1
      requestor_user_id := some "u1"
      session_id := some 7
      model_id := none
      status := "queued"
      params := []
      created_at := 4
      completed_at := none
      output_text := none
      confidence := none
      latency_ms := none
      error_message := none }] :=
  ⟨rfl,
   (c6_default_status_queued emptyPredictionsDb predictionBodyDefault 4).1,
   (c6_default_status_queued emptyPredictionsDb predictionBodyDefault 4).2.1 rfl⟩

/-- C9 counterexample: a POST /gestures submission with no way to supply a
source (GestureInput has only landmarks and user_id) stores source "api",
not the documented default "web": the handler passes source "api"
explicitly to the service. -/
theorem c9_source_api_counterexample :
    ((post_gestures emptyGesturesDb body21 0).2.rows.map (fun r => r.source)) =
      ["api"] ∧
    ("api" : String) ≠ "web" := by
  refine ⟨by decide, by decide⟩

/-- C9 amended: every gesture created through POST /gestures is stored with
source "api" (the handler sets the source key to "api"); the service-level
default "web" applies only to a direct GesturesMySQLService.create call
whose payload carries no source key. -/
theorem c9_source_api_from_route_web_from_service :
    (∀ (db : GesturesTable) (body : RawGestureBody) (now : Nat),
      body.landmarks.length = 21 →
      ((post_gestures db body now).2.rows.map (fun r => r.source)) =
        db.rows.map (fun r => r.source) ++ ["api"]) ∧
    (∀ (db : GesturesTable) (data : GestureCreateData) (now : Nat),
      data.source = none →
      ((GesturesMySQLService.create db data now).2.rows.map (fun r => r.source)) =
        db.rows.map (fun r => r.source) ++ ["web"]) := by
  constructor
  · intro db body now h
    simp [post_gestures, validateGestureInput, h, create_gesture,
      GesturesMySQLService.create]
  · intro db data now h
    simp [GesturesMySQLService.create, h]

/-- C9 witness: the 21-point POST body stores source "api" on the empty
table; a direct service create without a source key stores "web". -/
theorem c9_source_witness :
    ((post_gestures emptyGesturesDb body21 0).2.rows.map (fun r => r.source)) =
      emptyGesturesDb.rows.map (fun r => r.source) ++ ["api"] ∧
    ((GesturesMySQLService.create emptyGesturesDb gestureDataNoSource 0).2.rows.map
      (fun r => r.source)) =
      emptyGesturesDb.rows.map (fun r => r.source) ++ ["web"] :=
  ⟨c9_source_api_from_route_web_from_service.1 emptyGesturesDb body21 0 (by decide),
   c9_source_api_from_route_web_from_service.2 emptyGesturesDb gestureDataNoSource 0 rfl⟩

/-- C4: PredictionsMySQLService.mark_complete takes exactly one of two
branches on the truthiness of error_message. For any row matching the id:
with a non-empty error_message the row gets status "failed", the
error_message and completed_at recorded, and output_text, confidence and
latency_ms untouched; otherwise the row gets status "succeeded" with
output_text, confidence, latency_ms and completed_at recorded; the two
outcomes can never hold together. -/
theorem c4_mark_complete_exclusive_branches :
    ∀ (db : PredictionsTable) (pid : Nat) (out : String) (conf : Option Rat)
      (lat : Option Int) (err : Option String) (now : Nat) (r : PredictionRow),
    r ∈ db.rows → r.prediction_id = pid →
    ∃ r', r' ∈ (PredictionsMySQLService.mark_complete db pid out conf lat err now).2.rows ∧
      r'.prediction_id = pid ∧
      (truthyOptStr err = true →
        r'.status = "failed" ∧ r'.error_message = err ∧ r'.completed_at = some now ∧
        r'.output_text = r.output_text ∧ r'.confidence = r.confidence ∧
        r'.latency_ms = r.latency_ms) ∧
      (truthyOptStr err = false →
        r'.status = "succeeded" ∧ r'.output_text = some out ∧ r'.confidence = conf ∧
        r'.latency_ms = lat ∧ r'.completed_at = some now ∧
        r'.error_message = r.error_message) ∧
      ¬(r'.status = "failed" ∧ r'.status = "succeeded") := by
  intro db pid out conf lat err now r hmem hpid
  cases h : truthyOptStr err with
  | true =>
    refine ⟨{ r with
                status := "failed"
                error_message := err
                completed_at := some now }, ?_, ?_, ?_, ?_, ?_⟩
    · simp only [PredictionsMySQLService.mark_complete, h, if_true]
      exact List.mem_map.mpr ⟨r, hmem, by simp [hpid]⟩
    · exact hpid
    · intro _; exact ⟨rfl, rfl, rfl, rfl, rfl, rfl⟩
    · intro hf; exact absurd hf (by decide)
    · intro hcontra
      have := hcontra.1.symm.trans hcontra.2
      simp at this
  | false =>
    refine ⟨{ r with
                status := "succeeded"
                output_text := some out
                confidence := conf
                latency_ms := lat
                completed_at := some now }, ?_, ?_, ?_, ?_, ?_⟩
    · simp only [PredictionsMySQLService.mark_complete, h, if_false, Bool.false_eq_true]
      exact List.mem_map.mpr ⟨r, hmem, by simp [hpid]⟩
    · exact hpid
    · intro hf; exact absurd hf (by decide)
    · intro _; exact ⟨rfl, rfl, rfl, rfl, rfl, rfl⟩
    · intro hcontra
      have := hcontra.1.symm.trans hcontra.2
      simp at this

/-- C4 witness: marking the queued row 1 complete with error_message
"boom" yields a row for id 1 satisfying the failed-branch facts, with the
succeeded-branch implication vacuous. -/
theorem c4_mark_complete_witness :
    samplePredictionRow ∈ samplePredictionsDb.rows ∧
    samplePredictionRow.prediction_id = 1 ∧
    ∃ r', r' ∈ (PredictionsMySQLService.mark_complete samplePredictionsDb 1 "out"
        none none (some "boom") 7).2.rows ∧
      r'.prediction_id = 1 ∧
      (truthyOptStr (some "boom") = true →
        r'.status = "failed" ∧ r'.error_message = some "boom" ∧
        r'.completed_at = some 7 ∧
        r'.output_text = samplePredictionRow.output_text ∧
        r'.confidence = samplePredictionRow.confidence ∧
        r'.latency_ms = samplePredictionRow.latency_ms) ∧
      (truthyOptStr (some "boom") = false →
        r'.status = "succeeded" ∧ r'.output_text = some "out" ∧ r'.confidence = none ∧
        r'.latency_ms = none ∧ r'.completed_at = some 7 ∧
        r'.error_message = samplePredictionRow.error_message) ∧
      ¬(r'.status = "failed" ∧ r'.status = "succeeded") :=
  ⟨by decide, rfl,
   c4_mark_complete_exclusive_branches samplePredictionsDb 1 "out" none none
     (some "boom") 7 samplePredictionRow (by decide) rfl⟩

/-- C7: registering a model whose input_shape is the list holding 42 and
whose output_classes is 37 answers 201 with the new id, and retrieving that
id returns the row whose JSON-encoded shape columns decode back to exactly
those shapes — the encode/decode round-trip preserves them. The freshness
hypothesis says the AUTO_INCREMENT counter has not been reused, which the
table construction guarantees. -/
theorem c7_shape_roundtrip :
    ∀ (db : ModelsTable) (mi : ModelInput) (now : Nat),
    mi.input_shape = [42] → mi.output_classes = 37 →
    (∀ r ∈ db.rows, r.model_id ≠ db.nextId) →
    (register_model db mi now).1 = .ok 201 { model_id := db.nextId } ∧
    ∃ row, get_model (register_model db mi now).2 db.nextId = .ok 200 row ∧
      row.input_shape = jsonDumpsIntList [42] ∧
      row.output_shape = jsonDumpsIntList [37] ∧
      jsonParseIntList row.input_shape = some [42] ∧
      jsonParseIntList row.output_shape = some [37] := by
  intro db mi now h1 h2 hfresh
  refine ⟨rfl, ?_⟩
  refine ⟨{
      model_id := db.nextId
      name := mi.name
      version := mi.version
      model_type := mi.model_type
      artifact_uri := pyStrOr mi.model_path "/models/unknown.bin"
      input_shape := jsonDumpsIntList mi.input_shape
      output_shape := jsonDumpsIntList [mi.output_classes]
      status := "active"
      metrics := none
      sha256 := none
      created_at := now }, ?_, ?_, ?_, ?_, ?_⟩
  · simp only [register_model, ModelsMySQLService.create, get_model,
      ModelsMySQLService.retrieve]
    rw [find?_append_of_forall_false _ db.rows _
      (fun r hr => by simpa using hfresh r hr)]
    simp [List.find?]
  · rw [h1]
  · rw [h2]
  · rw [h1]
    exact (by decide : jsonParseIntList (jsonDumpsIntList [42]) = some [42])
  · rw [h2]
    exact (by decide : jsonParseIntList (jsonDumpsIntList [37]) = some [37])

/-- C7 witness: the concrete POST /models body on the empty table. -/
theorem c7_shape_roundtrip_witness :
    sampleModelInput.input_shape = [42] ∧
    sampleModelInput.output_classes = 37 ∧
    ((register_model emptyModelsDb sampleModelInput 9).1 =
       .ok 201 { model_id := 1 } ∧
     ∃ row, get_model (register_model emptyModelsDb sampleModelInput 9).2 1 =
         .ok 200 row ∧
       row.input_shape = jsonDumpsIntList [42] ∧
       row.output_shape = jsonDumpsIntList [37] ∧
       jsonParseIntList row.input_shape = some [42] ∧
       jsonParseIntList row.output_shape = some [37]) :=
  ⟨rfl, rfl,
   c7_shape_roundtrip emptyModelsDb sampleModelInput 9 rfl rfl
     (fun r hr => by simp [emptyModelsDb] at hr)⟩

/-- C8: deleting an id with no matching row reports "not found" — false
from the service, 404 from the handler — and leaves the table unchanged,
on the first and on every repeated call (the embedding is a total function
returning a boolean, matching the code path that never raises for nothing
to delete); after a delete of an existing id, repeating the delete again
reports false. -/
theorem c8_delete_idempotent :
    ∀ (db : ModelsTable) (mid : Nat),
    (ModelsMySQLService.delete (ModelsMySQLService.delete db mid).2 mid).1 = false ∧
    (db.rows.any (fun r => r.model_id == mid) = false →
      ModelsMySQLService.delete db mid = (false, db) ∧
      delete_model db mid = (.httpError 404 "Model not found", db)) ∧
    (db.rows.any (fun r => r.model_id == mid) = true →
      (ModelsMySQLService.delete db mid).1 = true ∧
      delete_model db mid =
        (.ok 200 { deleted := true }, (ModelsMySQLService.delete db mid).2)) := by
  intro db mid
  refine ⟨?_, ?_, ?_⟩
  · have h0 := countP_filter_not (fun r : ModelRow => r.model_id == mid) db.rows
    simp [ModelsMySQLService.delete, h0]
  · intro h
    have hall : ∀ r ∈ db.rows, (r.model_id == mid) = false := by
      intro r hr
      by_contra hc
      rw [Bool.not_eq_false] at hc
      rw [List.any_eq_false] at h
      exact (h r hr) hc
    have hcount : db.rows.countP (fun r => r.model_id == mid) = 0 :=
      List.countP_eq_zero.mpr (fun r hr => by simp [hall r hr])
    have hfilter : db.rows.filter (fun r => !(r.model_id == mid)) = db.rows :=
      filter_not_eq_self_of_none _ _ hall
    have hdel : ModelsMySQLService.delete db mid = (false, db) := by
      simp only [ModelsMySQLService.delete, hcount, hfilter]
      exact Prod.ext (by simp) rfl
    refine ⟨hdel, ?_⟩
    simp only [delete_model, hdel]
    rfl
  · intro h
    have hone : 0 < db.rows.countP (fun r => r.model_id == mid) := by
      rw [List.countP_pos_iff]
      rw [List.any_eq_true] at h
      exact h
    have hfst : (ModelsMySQLService.delete db mid).1 = true := by
      simp only [ModelsMySQLService.delete]
      simpa using hone
    refine ⟨hfst, ?_⟩
    simp only [delete_model, hfst]
    rfl

/-- C8 witness: deleting the absent id 999 from the one-row table reports
false and 404 and leaves the table unchanged; deleting the present id 1
reports true, and repeating that delete reports false. -/
theorem c8_delete_idempotent_witness :
    ModelsMySQLService.delete sampleModelsDb 999 = (false, sampleModelsDb) ∧
    delete_model sampleModelsDb 999 = (.httpError 404 "Model not found", sampleModelsDb) ∧
    (ModelsMySQLService.delete sampleModelsDb 1).1 = true ∧
    (ModelsMySQLService.delete (ModelsMySQLService.delete sampleModelsDb 1).2 1).1 = false :=
  ⟨((c8_delete_idempotent sampleModelsDb 999).2.1 (by decide)).1,
   ((c8_delete_idempotent sampleModelsDb 999).2.1 (by decide)).2,
   ((c8_delete_idempotent sampleModelsDb 1).2.2 (by decide)).1,
   (c8_delete_idempotent sampleModelsDb 1).1⟩
